import Mathlib

/-!
Shallow embedding of `src/sdl3/gpu/pass.rs` from the sdl3-rs repository: a thin
typed wrapper over the SDL3 GPU command-submission C API.  Native calls are
modelled as recorded trace events; fallible native calls take an explicit
response oracle (success flag, out-parameters, last driver error string).
Machine-integer casts in the source (`as u32`) are modelled as `% 2^32` on `Nat`.

The source's only floating-point arithmetic is `(c as f32) / 255.0` on `u8`
channel values.  Finite IEEE binary32 values are dyadic rationals `m * 2^p`;
we model them exactly as a significand/exponent record `F32`, with division of
two natural numbers implemented by the IEEE algorithm (round to 24 significant
bits, nearest, ties to even).  The quotients arising here lie in the positive
normal range `[1/255, 1] ∪ {0}`, so no overflow or subnormal handling is
required; the model is faithful down to `2^-149`, the least positive binary32
magnitude.
-/

namespace SDL3GPU

/-- Opaque native pointers/handles are modelled as naturals (0 = null). -/
abbrev Ptr := Nat

/-! ## Exact model of the `f32` arithmetic used by the source -/

/-- A finite IEEE binary32 value `m * 2^p`, in canonical form: `m = 0`, or
`2^23 ≤ m < 2^24` (so distinct records denote distinct reals). -/
structure F32 where
  m : ℤ
  p : ℤ
  deriving DecidableEq, Repr

/-- The exact rational value of a modelled binary32 number. -/
def F32.toRat (f : F32) : ℚ := (f.m : ℚ) * (2 : ℚ) ^ f.p

/-- `⌊log₂ n⌋` for `n ≥ 1` (0 at 0), by fuel-based structural recursion so
that it reduces inside the kernel. -/
def floorLog2Aux : Nat → Nat → Nat
  | 0, _ => 0
  | fuel + 1, n => if n ≤ 1 then 0 else floorLog2Aux fuel (n / 2) + 1

/-- `⌊log₂ n⌋` (0 at 0). -/
def floorLog2 (n : Nat) : Nat := floorLog2Aux n n

/-- IEEE binary32 division of two naturals `n / d` (`d ≠ 0`), valid when the
exact quotient is 0 or lies in `[2^-149, 2^128)`: compute the binary exponent
of the quotient through a fixed-point shift by `2^149`, scale to a 24-bit
integer significand, round to nearest with ties to even, and renormalize if
rounding overflows to `2^24`. -/
def f32DivNat (n d : Nat) : F32 :=
  if n = 0 then ⟨0, 0⟩
  else
    let e : ℤ := (floorLog2 ((n * 2 ^ 149) / d) : ℤ) - 149
    let p : ℤ := e - 23
    let A : Nat := if p ≤ 0 then n * 2 ^ (-p).toNat else n
    let B : Nat := if p ≤ 0 then d else d * 2 ^ p.toNat
    let k := A / B
    let r := A % B
    let m : Nat :=
      if 2 * r < B then k
      else if B < 2 * r then k + 1
      else if k % 2 = 0 then k else k + 1
    if m = 2 ^ 24 then ⟨(2 : ℤ) ^ 23, p + 1⟩ else ⟨(m : ℤ), p⟩

/-- Boolean comparison of two modelled binary32 values, by integer
cross-scaling to the smaller exponent. -/
def F32.ltB (f g : F32) : Bool :=
  let q := min f.p g.p
  f.m * 2 ^ (f.p - q).toNat < g.m * 2 ^ (g.p - q).toNat

/-! ## Support types from the rest of the repository -/

/-- Modelled from the spec: `pixels::Color` (not under `src/`), a plain value
with four 8-bit channels `r`, `g`, `b`, `a`; bytes are modelled as naturals,
with the byte range `≤ 255` carried as a hypothesis where a claim needs it. -/
structure Color where
  r : Nat
  g : Nat
  b : Nat
  a : Nat
  deriving DecidableEq

/-- Modelled from the spec: the `Error` type wrapping "the last driver-reported
error as a string". -/
structure Error where
  message : String
  deriving DecidableEq

/-- Modelled from the spec: a `Texture` resource handle (constructed and
destroyed elsewhere), wrapping a native opaque handle plus the width and height
reported at acquisition. -/
structure Texture where
  inner : Ptr
  width : Nat
  height : Nat
  deriving DecidableEq

/-- The native handle of a texture. -/
def Texture.raw (t : Texture) : Ptr := t.inner

/-- Modelled from the spec: `Texture::new_sdl_managed` builds the texture
returned by swapchain acquisition from the native-reported handle, width and
height. -/
def Texture.new_sdl_managed (inner : Ptr) (width height : Nat) : Texture :=
  ⟨inner, width, height⟩

/-- Modelled from the spec: a `Buffer` resource handle wrapping a native
opaque handle. -/
structure Buffer where
  inner : Ptr
  deriving DecidableEq

/-- The native handle of a buffer. -/
def Buffer.raw (b : Buffer) : Ptr := b.inner

/-- Modelled from the spec: a `Window` abstraction used for swapchain
acquisition, wrapping a native opaque handle. -/
structure Window where
  inner : Ptr
  deriving DecidableEq

/-- The native handle of a window. -/
def Window.raw (w : Window) : Ptr := w.inner

/-- Modelled from the spec: the wrapper-level `LoadOp` enumeration, "mapped
from a wrapper-level enumeration to the native integer encoding via direct
value cast". -/
inductive LoadOp where
  | load
  | clear
  | dontCare
  deriving DecidableEq

/-- The integer discriminant of a `LoadOp` (identical to the native encoding). -/
def LoadOp.toInt : LoadOp → ℤ
  | .load => 0
  | .clear => 1
  | .dontCare => 2

/-- Modelled from the spec: the wrapper-level `StoreOp` enumeration. -/
inductive StoreOp where
  | store
  | dontCare
  | resolve
  | resolveAndStore
  deriving DecidableEq

/-- The integer discriminant of a `StoreOp`. -/
def StoreOp.toInt : StoreOp → ℤ
  | .store => 0
  | .dontCare => 1
  | .resolve => 2
  | .resolveAndStore => 3

/-- Modelled from the spec: the wrapper-level `Filter` enumeration. -/
inductive Filter where
  | nearest
  | linear
  deriving DecidableEq

/-- The integer discriminant of a `Filter`. -/
def Filter.toInt : Filter → ℤ
  | .nearest => 0
  | .linear => 1

/-! ## Native-layout structs (the fields the wrapper writes) -/

/-- The native `SDL_GPULoadOp` enum, a C integer. -/
structure SDL_GPULoadOp where
  val : ℤ
  deriving DecidableEq

/-- The native `SDL_GPUStoreOp` enum, a C integer. -/
structure SDL_GPUStoreOp where
  val : ℤ
  deriving DecidableEq

/-- The native `SDL_GPUFilter` enum, a C integer. -/
structure SDL_GPUFilter where
  val : ℤ
  deriving DecidableEq

/-- The native `SDL_FColor`: four `f32` channels. -/
structure FColor where
  r : F32
  g : F32
  b : F32
  a : F32
  deriving DecidableEq

/-- The native `SDL_GPUDepthStencilTargetInfo`, restricted to the fields this
wrapper ever writes. -/
structure SDL_GPUDepthStencilTargetInfo where
  texture : Ptr
  clear_depth : F32
  load_op : SDL_GPULoadOp
  store_op : SDL_GPUStoreOp
  stencil_load_op : SDL_GPULoadOp
  stencil_store_op : SDL_GPUStoreOp
  cycle : Bool
  clear_stencil : Nat
  deriving DecidableEq

/-- The native `SDL_GPUColorTargetInfo`, restricted to the fields this wrapper
ever writes. -/
structure SDL_GPUColorTargetInfo where
  texture : Ptr
  clear_color : FColor
  load_op : SDL_GPULoadOp
  store_op : SDL_GPUStoreOp
  deriving DecidableEq

/-- The native `SDL_GPUBlitRegion`: a texture subregion. -/
structure SDL_GPUBlitRegion where
  texture : Ptr
  mip_level : Nat
  layer_or_depth_plane : Nat
  x : Nat
  y : Nat
  w : Nat
  h : Nat
  deriving DecidableEq

/-- The native `SDL_GPUBlitInfo`, restricted to the fields this wrapper ever
writes. -/
structure SDL_GPUBlitInfo where
  source : SDL_GPUBlitRegion
  destination : SDL_GPUBlitRegion
  load_op : SDL_GPULoadOp
  clear_color : FColor
  filter : SDL_GPUFilter
  cycle : Bool
  deriving DecidableEq

/-- The native `SDL_GPUBufferBinding`: a buffer handle plus a byte offset. -/
structure SDL_GPUBufferBinding where
  buffer : Ptr
  offset : Nat
  deriving DecidableEq

/-- The wrapper's `BufferBinding`, a value wrapper over the native binding
(passed through to the native call unchanged). -/
structure BufferBinding where
  inner : SDL_GPUBufferBinding
  deriving DecidableEq

/-! ## The native call trace

Each wrapper operation is embedded as a function returning the list of native
calls it performs, with the arguments the source passes.  Arrays passed by
pointer-and-count are recorded as the pointed-to list plus the `u32` count the
source computes (`len() as u32`, i.e. `length % 2^32`). -/

/-- One call into the native SDL GPU API, with the arguments passed. -/
inductive NativeCall where
  | pushGPUVertexUniformData (cmdbuf : Ptr) (slot_index : Nat) (data : Ptr) (length : Nat)
  | pushGPUFragmentUniformData (cmdbuf : Ptr) (slot_index : Nat) (data : Ptr) (length : Nat)
  | pushGPUComputeUniformData (cmdbuf : Ptr) (slot_index : Nat) (data : Ptr) (length : Nat)
  | waitAndAcquireGPUSwapchainTexture (cmdbuf : Ptr) (window : Ptr)
  | acquireGPUSwapchainTexture (cmdbuf : Ptr) (window : Ptr)
  | blitGPUTexture (cmdbuf : Ptr) (info : SDL_GPUBlitInfo)
  | submitGPUCommandBuffer (cmdbuf : Ptr)
  | cancelGPUCommandBuffer (cmdbuf : Ptr)
  | bindGPUGraphicsPipeline (render_pass : Ptr) (pipeline : Ptr)
  | bindGPUVertexBuffers (render_pass : Ptr) (first_slot : Nat)
      (bindings : List SDL_GPUBufferBinding) (num_bindings : Nat)
  | drawGPUIndexedPrimitives (render_pass : Ptr) (num_indices num_instances first_index : Nat)
      (vertex_offset : ℤ) (first_instance : Nat)
  | drawGPUPrimitives (render_pass : Ptr) (num_vertices num_instances first_vertex first_instance : Nat)
  | bindGPUComputePipeline (compute_pass : Ptr) (pipeline : Ptr)
  | bindGPUComputeStorageBuffers (compute_pass : Ptr) (first_slot : Nat)
      (storage_buffers : List Ptr) (num_bindings : Nat)
  | bindGPUComputeStorageTextures (compute_pass : Ptr) (first_slot : Nat)
      (storage_textures : List Ptr) (num_bindings : Nat)
  deriving DecidableEq

/-! ## CommandBuffer -/

/-- `CommandBuffer`: owns the native opaque handle to command-recording state. -/
structure CommandBuffer where
  inner : Ptr
  deriving DecidableEq

/-- `CommandBuffer::raw`. -/
def CommandBuffer.raw (self : CommandBuffer) : Ptr := self.inner

/-- Receiver modes of Rust methods, read off the source signatures: `self`
(by-value, consuming), `&self` (shared borrow), `&mut self` (exclusive
borrow). -/
inductive Receiver where
  | owned
  | shared
  | exclusive
  deriving DecidableEq

/-- `CommandBuffer::submit` is declared `pub fn submit(self)`: the receiver is
taken by value, so the buffer is consumed by the call. -/
def CommandBuffer.submitReceiver : Receiver := .owned

/-- `CommandBuffer::cancel` is declared `pub fn cancel(&mut self)`: the
receiver is an exclusive borrow, not consumed. -/
def CommandBuffer.cancelReceiver : Receiver := .exclusive

/-- A Rust `Sized` type, as far as this module observes one: its layout.
`size_of` below is Rust's `size_of::<T>()`. -/
inductive RustType where
  | f32
  | u8
  | array (n : Nat) (elem : RustType)

/-- Rust `size_of::<T>()` in bytes for the modelled types. -/
def RustType.size_of : RustType → Nat
  | .f32 => 4
  | .u8 => 1
  | .array n elem => n * elem.size_of

/-- A 4x4 matrix of `f32`: the `Matrix4x4` of the spec's scenario. -/
def Matrix4x4 : RustType := .array 4 (.array 4 .f32)

/-- `CommandBuffer::push_vertex_uniform_data::<T>(slot_index, data)`: one
native call with the raw handle, the slot, the data pointer, and
`size_of::<T>() as u32`. -/
def CommandBuffer.push_vertex_uniform_data (self : CommandBuffer) (slot_index : Nat)
    (T : RustType) (data : Ptr) : List NativeCall :=
  [.pushGPUVertexUniformData self.raw slot_index data (T.size_of % 2 ^ 32)]

/-- `CommandBuffer::push_fragment_uniform_data::<T>(slot_index, data)`. -/
def CommandBuffer.push_fragment_uniform_data (self : CommandBuffer) (slot_index : Nat)
    (T : RustType) (data : Ptr) : List NativeCall :=
  [.pushGPUFragmentUniformData self.raw slot_index data (T.size_of % 2 ^ 32)]

/-- `CommandBuffer::push_compute_uniform_data::<T>(slot_index, data)`. -/
def CommandBuffer.push_compute_uniform_data (self : CommandBuffer) (slot_index : Nat)
    (T : RustType) (data : Ptr) : List NativeCall :=
  [.pushGPUComputeUniformData self.raw slot_index data (T.size_of % 2 ^ 32)]

/-- The outcome the native layer reports for a swapchain acquisition: the
success flag, the out-parameters it wrote (`swapchain`, `width`, `height`),
and the last driver error string (`get_error()`) observed on failure. -/
structure AcquireResponse where
  success : Bool
  swapchain : Ptr
  width : Nat
  height : Nat
  lastError : String
  deriving DecidableEq

/-- `CommandBuffer::wait_and_acquire_swapchain_texture` (blocking variant):
one native `SDL_WaitAndAcquireGPUSwapchainTexture` call; on success, `Ok` of a
texture built from the reported handle, width and height; on failure, `Err` of
the last driver error. -/
def CommandBuffer.wait_and_acquire_swapchain_texture (self : CommandBuffer) (w : Window)
    (resp : AcquireResponse) : Except Error Texture × List NativeCall :=
  (if resp.success then
      .ok (Texture.new_sdl_managed resp.swapchain resp.width resp.height)
    else
      .error ⟨resp.lastError⟩,
   [.waitAndAcquireGPUSwapchainTexture self.inner w.raw])

/-- `CommandBuffer::acquire_swapchain_texture` (non-blocking variant): one
native `SDL_AcquireGPUSwapchainTexture` call, same result shape as the
blocking variant. -/
def CommandBuffer.acquire_swapchain_texture (self : CommandBuffer) (w : Window)
    (resp : AcquireResponse) : Except Error Texture × List NativeCall :=
  (if resp.success then
      .ok (Texture.new_sdl_managed resp.swapchain resp.width resp.height)
    else
      .error ⟨resp.lastError⟩,
   [.acquireGPUSwapchainTexture self.inner w.raw])

/-- The outcome the native layer reports for `SDL_SubmitGPUCommandBuffer`,
plus the last driver error string observed on failure. -/
structure SubmitResponse where
  success : Bool
  lastError : String
  deriving DecidableEq

/-- `CommandBuffer::submit(self)`: one native submit call; `Ok(())` on native
success, `Err(get_error())` on failure. -/
def CommandBuffer.submit (self : CommandBuffer) (resp : SubmitResponse) :
    Except Error Unit × List NativeCall :=
  (if resp.success then .ok () else .error ⟨resp.lastError⟩,
   [.submitGPUCommandBuffer self.inner])

/-- `CommandBuffer::cancel(&mut self)`: one native cancel call; the receiver
is returned as the call leaves it (the method never writes `self.inner`). -/
def CommandBuffer.cancel (self : CommandBuffer) : CommandBuffer × List NativeCall :=
  (self, [.cancelGPUCommandBuffer self.inner])

/-! ## RenderPass -/

/-- `RenderPass`: a non-owning view over a native render-pass handle. -/
structure RenderPass where
  inner : Ptr
  deriving DecidableEq

/-- `RenderPass::raw`. -/
def RenderPass.raw (self : RenderPass) : Ptr := self.inner

/-- `RenderPass::bind_vertex_buffers(first_slot, bindings)`: one native call
passing the raw pass handle, the slot, the bindings array pointer, and
`bindings.len() as u32`. -/
def RenderPass.bind_vertex_buffers (self : RenderPass) (first_slot : Nat)
    (bindings : List BufferBinding) : List NativeCall :=
  [.bindGPUVertexBuffers self.raw first_slot (bindings.map BufferBinding.inner)
      (bindings.length % 2 ^ 32)]

/-- `RenderPass::draw_indexed_primitives`: one native call, all five `u32`/`i32`
arguments passed unchanged. -/
def RenderPass.draw_indexed_primitives (self : RenderPass) (num_indices num_instances
    first_index : Nat) (vertex_offset : ℤ) (first_instance : Nat) : List NativeCall :=
  [.drawGPUIndexedPrimitives self.raw num_indices num_instances first_index vertex_offset
      first_instance]

/-- `RenderPass::draw_primitives`: one native call; the four `usize` arguments
are each cast `as u32`. -/
def RenderPass.draw_primitives (self : RenderPass) (num_vertices num_instances
    first_vertex first_instance : Nat) : List NativeCall :=
  [.drawGPUPrimitives self.inner (num_vertices % 2 ^ 32) (num_instances % 2 ^ 32)
      (first_vertex % 2 ^ 32) (first_instance % 2 ^ 32)]

/-! ## ComputePass -/

/-- `ComputePass`: a non-owning view over a native compute-pass handle. -/
structure ComputePass where
  inner : Ptr
  deriving DecidableEq

/-- `ComputePass::bind_compute_storage_buffers(first_slot, storage_buffers)`:
collect the native handle of each borrowed buffer into a contiguous array,
then one native call with the pass handle, the slot, that array, and its
`len() as u32`. -/
def ComputePass.bind_compute_storage_buffers (self : ComputePass) (first_slot : Nat)
    (storage_buffers : List Buffer) : List NativeCall :=
  let buffer_handles := storage_buffers.map Buffer.raw
  [.bindGPUComputeStorageBuffers self.inner first_slot buffer_handles
      (buffer_handles.length % 2 ^ 32)]

/-- `ComputePass::bind_compute_storage_textures(first_slot, storage_textures)`:
same shape as the storage-buffer bind, over texture handles. -/
def ComputePass.bind_compute_storage_textures (self : ComputePass) (first_slot : Nat)
    (storage_textures : List Texture) : List NativeCall :=
  let texture_handles := storage_textures.map Texture.raw
  [.bindGPUComputeStorageTextures self.inner first_slot texture_handles
      (texture_handles.length % 2 ^ 32)]

/-! ## Builder value objects -/

/-- `DepthStencilTargetInfo`: a zero-initialized native-layout struct built by
chained setters. -/
structure DepthStencilTargetInfo where
  inner : SDL_GPUDepthStencilTargetInfo
  deriving DecidableEq

/-- `DepthStencilTargetInfo::with_texture`. -/
def DepthStencilTargetInfo.with_texture (self : DepthStencilTargetInfo)
    (texture : Texture) : DepthStencilTargetInfo :=
  { self with inner.texture := texture.raw }

/-- `DepthStencilTargetInfo::with_clear_depth` (the `f32` argument is stored
unchanged). -/
def DepthStencilTargetInfo.with_clear_depth (self : DepthStencilTargetInfo)
    (clear_depth : F32) : DepthStencilTargetInfo :=
  { self with inner.clear_depth := clear_depth }

/-- `DepthStencilTargetInfo::with_load_op`: stores `SDL_GPULoadOp(value as i32)`. -/
def DepthStencilTargetInfo.with_load_op (self : DepthStencilTargetInfo)
    (value : LoadOp) : DepthStencilTargetInfo :=
  { self with inner.load_op := ⟨value.toInt⟩ }

/-- `DepthStencilTargetInfo::with_store_op`: stores `SDL_GPUStoreOp(value as i32)`. -/
def DepthStencilTargetInfo.with_store_op (self : DepthStencilTargetInfo)
    (value : StoreOp) : DepthStencilTargetInfo :=
  { self with inner.store_op := ⟨value.toInt⟩ }

/-- `DepthStencilTargetInfo::with_stencil_load_op`: the source transmutes the
`u32` discriminant into the native enum; for the declared discriminants
(0, 1, 2) this is the same integer the `as i32` cast produces. -/
def DepthStencilTargetInfo.with_stencil_load_op (self : DepthStencilTargetInfo)
    (value : LoadOp) : DepthStencilTargetInfo :=
  { self with inner.stencil_load_op := ⟨value.toInt⟩ }

/-- `DepthStencilTargetInfo::with_stencil_store_op` (transmute of the `u32`
discriminant, numerically identical for discriminants 0–3). -/
def DepthStencilTargetInfo.with_stencil_store_op (self : DepthStencilTargetInfo)
    (value : StoreOp) : DepthStencilTargetInfo :=
  { self with inner.stencil_store_op := ⟨value.toInt⟩ }

/-- `DepthStencilTargetInfo::with_cycle`. -/
def DepthStencilTargetInfo.with_cycle (self : DepthStencilTargetInfo)
    (cycle : Bool) : DepthStencilTargetInfo :=
  { self with inner.cycle := cycle }

/-- `DepthStencilTargetInfo::with_clear_stencil` (a `u8` argument). -/
def DepthStencilTargetInfo.with_clear_stencil (self : DepthStencilTargetInfo)
    (clear_stencil : Nat) : DepthStencilTargetInfo :=
  { self with inner.clear_stencil := clear_stencil }

/-- `ColorTargetInfo`: a zero-initialized native-layout struct built by
chained setters. -/
structure ColorTargetInfo where
  inner : SDL_GPUColorTargetInfo
  deriving DecidableEq

/-- `ColorTargetInfo::with_texture`. -/
def ColorTargetInfo.with_texture (self : ColorTargetInfo) (texture : Texture) :
    ColorTargetInfo :=
  { self with inner.texture := texture.raw }

/-- `ColorTargetInfo::with_load_op` (transmute of the `u32` discriminant). -/
def ColorTargetInfo.with_load_op (self : ColorTargetInfo) (value : LoadOp) :
    ColorTargetInfo :=
  { self with inner.load_op := ⟨value.toInt⟩ }

/-- `ColorTargetInfo::with_store_op` (transmute of the `u32` discriminant). -/
def ColorTargetInfo.with_store_op (self : ColorTargetInfo) (value : StoreOp) :
    ColorTargetInfo :=
  { self with inner.store_op := ⟨value.toInt⟩ }

/-- `ColorTargetInfo::with_clear_color`: each channel is stored as
`(value.ch as f32) / 255.0`, binary32 division of the converted byte by 255. -/
def ColorTargetInfo.with_clear_color (self : ColorTargetInfo) (value : Color) :
    ColorTargetInfo :=
  { self with
      inner.clear_color.r := f32DivNat value.r 255
      inner.clear_color.g := f32DivNat value.g 255
      inner.clear_color.b := f32DivNat value.b 255
      inner.clear_color.a := f32DivNat value.a 255 }

/-- `BlitInfo`: a zero-initialized native-layout struct built by chained
setters. -/
structure BlitInfo where
  inner : SDL_GPUBlitInfo
  deriving DecidableEq

/-- `BlitInfo::with_source_texture`. -/
def BlitInfo.with_source_texture (self : BlitInfo) (texture : Texture) : BlitInfo :=
  { self with inner.source.texture := texture.raw }

/-- `BlitInfo::with_source_mip`. -/
def BlitInfo.with_source_mip (self : BlitInfo) (mip_level : Nat) : BlitInfo :=
  { self with inner.source.mip_level := mip_level }

/-- `BlitInfo::with_source_region`. -/
def BlitInfo.with_source_region (self : BlitInfo) (layer_or_depth x y width height : Nat) :
    BlitInfo :=
  { self with
      inner.source.layer_or_depth_plane := layer_or_depth
      inner.source.x := x
      inner.source.y := y
      inner.source.w := width
      inner.source.h := height }

/-- `BlitInfo::with_destination_texture`. -/
def BlitInfo.with_destination_texture (self : BlitInfo) (texture : Texture) : BlitInfo :=
  { self with inner.destination.texture := texture.raw }

/-- `BlitInfo::with_destination_mip`. -/
def BlitInfo.with_destination_mip (self : BlitInfo) (mip_level : Nat) : BlitInfo :=
  { self with inner.destination.mip_level := mip_level }

/-- `BlitInfo::with_destination_region`. -/
def BlitInfo.with_destination_region (self : BlitInfo)
    (layer_or_depth x y width height : Nat) : BlitInfo :=
  { self with
      inner.destination.layer_or_depth_plane := layer_or_depth
      inner.destination.x := x
      inner.destination.y := y
      inner.destination.w := width
      inner.destination.h := height }

/-- `BlitInfo::with_load_op`: stores `SDL_GPULoadOp(load_op as i32)`. -/
def BlitInfo.with_load_op (self : BlitInfo) (load_op : LoadOp) : BlitInfo :=
  { self with inner.load_op := ⟨load_op.toInt⟩ }

/-- `BlitInfo::with_clear_color`: each channel is stored as
`(clear_color.ch as f32) / 255.0`. -/
def BlitInfo.with_clear_color (self : BlitInfo) (clear_color : Color) : BlitInfo :=
  { self with
      inner.clear_color.r := f32DivNat clear_color.r 255
      inner.clear_color.g := f32DivNat clear_color.g 255
      inner.clear_color.b := f32DivNat clear_color.b 255
      inner.clear_color.a := f32DivNat clear_color.a 255 }

/-- `BlitInfo::with_filter`: stores `SDL_GPUFilter(filter as i32)`. -/
def BlitInfo.with_filter (self : BlitInfo) (filter : Filter) : BlitInfo :=
  { self with inner.filter := ⟨filter.toInt⟩ }

/-- `BlitInfo::with_cycle`. -/
def BlitInfo.with_cycle (self : BlitInfo) (cycle : Bool) : BlitInfo :=
  { self with inner.cycle := cycle }

/-! ## The native command stream

A native call denotes a list of logical GPU commands.  Modelled from the spec:
`SDL_BindGPUVertexBuffers(pass, first_slot, ptr, num_bindings)` "binds one or
more vertex buffers at a starting slot", i.e. it records one per-slot bind
operation for each of the first `num_bindings` array entries, at consecutive
slots; a draw call records one draw operation; every other call is kept as an
opaque command. -/

/-- A logical entry of the native command stream. -/
inductive GpuCommand where
  | bindVertexBuffer (render_pass : Ptr) (slot : Nat) (binding : SDL_GPUBufferBinding)
  | drawPrimitives (render_pass : Ptr) (num_vertices num_instances first_vertex first_instance : Nat)
  | other (call : NativeCall)
  deriving DecidableEq

/-- One per-slot bind operation for each binding, at consecutive slots from
`slot`. -/
def bindCmdsFrom (render_pass : Ptr) (slot : Nat) :
    List SDL_GPUBufferBinding → List GpuCommand
  | [] => []
  | b :: bs => .bindVertexBuffer render_pass slot b :: bindCmdsFrom render_pass (slot + 1) bs

/-- The commands a single native call records (see the section comment): a
vertex-buffer bind call binds the first `num_bindings` entries of the array
it was passed. -/
def NativeCall.commands : NativeCall → List GpuCommand
  | .bindGPUVertexBuffers p first bs n => bindCmdsFrom p first (bs.take n)
  | .drawGPUPrimitives p nv ni fv fi => [.drawPrimitives p nv ni fv fi]
  | c => [.other c]

/-- The command stream recorded by a trace of native calls, in call order. -/
def traceCommands : List NativeCall → List GpuCommand
  | [] => []
  | c :: t => c.commands ++ traceCommands t

/-! ## Recording lifetime of a command buffer

Modelled from the spec: "lifetime ends at `submit` (consumes) or `cancel`
(resets).  Exactly one of submit/cancel terminates a given buffer; using it
afterward is a contract violation left to the native layer to detect." -/

/-- The recording lifetime states of a command buffer. -/
inductive BufferLife where
  | recording
  | terminated
  deriving DecidableEq

/-- The two operations that terminate a buffer's recording lifetime. -/
inductive TerminalOp where
  | submitOp
  | cancelOp
  deriving DecidableEq

/-- One lifetime transition: either terminator ends a recording buffer;
applying one to an already-terminated buffer is a contract violation
(`none`). -/
def lifeStep : BufferLife → TerminalOp → Option BufferLife
  | .recording, _ => some .terminated
  | .terminated, _ => none

/-- Run a sequence of terminator operations from a given lifetime state. -/
def lifeRun : BufferLife → List TerminalOp → Option BufferLife
  | s, [] => some s
  | s, e :: es =>
    match lifeStep s e with
    | some t => lifeRun t es
    | none => none

/-! ## Named setters as data (for the builder-algebra claims) -/

/-- The `with_*` setters of `DepthStencilTargetInfo`, with their arguments. -/
inductive DSTSetter where
  | texture (t : Texture)
  | clear_depth (v : F32)
  | load_op (v : LoadOp)
  | store_op (v : StoreOp)
  | stencil_load_op (v : LoadOp)
  | stencil_store_op (v : StoreOp)
  | cycle (b : Bool)
  | clear_stencil (v : Nat)

/-- Apply a named `DepthStencilTargetInfo` setter. -/
def DepthStencilTargetInfo.applySet (self : DepthStencilTargetInfo) :
    DSTSetter → DepthStencilTargetInfo
  | .texture t => self.with_texture t
  | .clear_depth v => self.with_clear_depth v
  | .load_op v => self.with_load_op v
  | .store_op v => self.with_store_op v
  | .stencil_load_op v => self.with_stencil_load_op v
  | .stencil_store_op v => self.with_stencil_store_op v
  | .cycle b => self.with_cycle b
  | .clear_stencil v => self.with_clear_stencil v

/-- The field a `DSTSetter` names (two setters name the same field exactly
when they have the same tag). -/
def DSTSetter.tag : DSTSetter → Nat
  | .texture _ => 0
  | .clear_depth _ => 1
  | .load_op _ => 2
  | .store_op _ => 3
  | .stencil_load_op _ => 4
  | .stencil_store_op _ => 5
  | .cycle _ => 6
  | .clear_stencil _ => 7

/-- The `with_*` setters of `ColorTargetInfo`, with their arguments. -/
inductive CTISetter where
  | texture (t : Texture)
  | load_op (v : LoadOp)
  | store_op (v : StoreOp)
  | clear_color (c : Color)

/-- Apply a named `ColorTargetInfo` setter. -/
def ColorTargetInfo.applySet (self : ColorTargetInfo) : CTISetter → ColorTargetInfo
  | .texture t => self.with_texture t
  | .load_op v => self.with_load_op v
  | .store_op v => self.with_store_op v
  | .clear_color c => self.with_clear_color c

/-- The field a `CTISetter` names. -/
def CTISetter.tag : CTISetter → Nat
  | .texture _ => 0
  | .load_op _ => 1
  | .store_op _ => 2
  | .clear_color _ => 3

/-- The `with_*` setters of `BlitInfo`, with their arguments. -/
inductive BlitSetter where
  | source_texture (t : Texture)
  | source_mip (m : Nat)
  | source_region (layer_or_depth x y width height : Nat)
  | destination_texture (t : Texture)
  | destination_mip (m : Nat)
  | destination_region (layer_or_depth x y width height : Nat)
  | load_op (v : LoadOp)
  | clear_color (c : Color)
  | filter (f : Filter)
  | cycle (b : Bool)

/-- Apply a named `BlitInfo` setter. -/
def BlitInfo.applySet (self : BlitInfo) : BlitSetter → BlitInfo
  | .source_texture t => self.with_source_texture t
  | .source_mip m => self.with_source_mip m
  | .source_region l x y w h => self.with_source_region l x y w h
  | .destination_texture t => self.with_destination_texture t
  | .destination_mip m => self.with_destination_mip m
  | .destination_region l x y w h => self.with_destination_region l x y w h
  | .load_op v => self.with_load_op v
  | .clear_color c => self.with_clear_color c
  | .filter f => self.with_filter f
  | .cycle b => self.with_cycle b

/-- The field group a `BlitSetter` names. -/
def BlitSetter.tag : BlitSetter → Nat
  | .source_texture _ => 0
  | .source_mip _ => 1
  | .source_region _ _ _ _ _ => 2
  | .destination_texture _ => 3
  | .destination_mip _ => 4
  | .destination_region _ _ _ _ _ => 5
  | .load_op _ => 6
  | .clear_color _ => 7
  | .filter _ => 8
  | .cycle _ => 9

/-! ## Field-level reads (for the frame claims) -/

/-- A field value of any of the builder structs. -/
inductive FieldVal where
  | ptr (p : Ptr)
  | f32 (v : F32)
  | loadOp (v : SDL_GPULoadOp)
  | storeOp (v : SDL_GPUStoreOp)
  | filter (v : SDL_GPUFilter)
  | color (c : FColor)
  | nat (n : Nat)
  | bool (b : Bool)
  deriving DecidableEq

/-- The fields of the native `SDL_GPUDepthStencilTargetInfo`. -/
inductive DSTField where
  | texture
  | clear_depth
  | load_op
  | store_op
  | stencil_load_op
  | stencil_store_op
  | cycle
  | clear_stencil
  deriving DecidableEq

/-- Read one field of a `DepthStencilTargetInfo`. -/
def DepthStencilTargetInfo.read (self : DepthStencilTargetInfo) : DSTField → FieldVal
  | .texture => .ptr self.inner.texture
  | .clear_depth => .f32 self.inner.clear_depth
  | .load_op => .loadOp self.inner.load_op
  | .store_op => .storeOp self.inner.store_op
  | .stencil_load_op => .loadOp self.inner.stencil_load_op
  | .stencil_store_op => .storeOp self.inner.stencil_store_op
  | .cycle => .bool self.inner.cycle
  | .clear_stencil => .nat self.inner.clear_stencil

/-- Which fields a `DSTSetter` writes. -/
def DSTSetter.writes : DSTSetter → DSTField → Bool
  | .texture _, .texture => true
  | .clear_depth _, .clear_depth => true
  | .load_op _, .load_op => true
  | .store_op _, .store_op => true
  | .stencil_load_op _, .stencil_load_op => true
  | .stencil_store_op _, .stencil_store_op => true
  | .cycle _, .cycle => true
  | .clear_stencil _, .clear_stencil => true
  | _, _ => false

/-- The fields of the native `SDL_GPUColorTargetInfo` this wrapper writes. -/
inductive CTIField where
  | texture
  | clear_color
  | load_op
  | store_op
  deriving DecidableEq

/-- Read one field of a `ColorTargetInfo`. -/
def ColorTargetInfo.read (self : ColorTargetInfo) : CTIField → FieldVal
  | .texture => .ptr self.inner.texture
  | .clear_color => .color self.inner.clear_color
  | .load_op => .loadOp self.inner.load_op
  | .store_op => .storeOp self.inner.store_op

/-- Which fields a `CTISetter` writes. -/
def CTISetter.writes : CTISetter → CTIField → Bool
  | .texture _, .texture => true
  | .load_op _, .load_op => true
  | .store_op _, .store_op => true
  | .clear_color _, .clear_color => true
  | _, _ => false

/-- The fields of the native `SDL_GPUBlitInfo`, with the two nested
`SDL_GPUBlitRegion`s split into their fields. -/
inductive BlitField where
  | source_texture
  | source_mip_level
  | source_layer_or_depth_plane
  | source_x
  | source_y
  | source_w
  | source_h
  | destination_texture
  | destination_mip_level
  | destination_layer_or_depth_plane
  | destination_x
  | destination_y
  | destination_w
  | destination_h
  | load_op
  | clear_color
  | filter
  | cycle
  deriving DecidableEq

/-- Read one field of a `BlitInfo`. -/
def BlitInfo.read (self : BlitInfo) : BlitField → FieldVal
  | .source_texture => .ptr self.inner.source.texture
  | .source_mip_level => .nat self.inner.source.mip_level
  | .source_layer_or_depth_plane => .nat self.inner.source.layer_or_depth_plane
  | .source_x => .nat self.inner.source.x
  | .source_y => .nat self.inner.source.y
  | .source_w => .nat self.inner.source.w
  | .source_h => .nat self.inner.source.h
  | .destination_texture => .ptr self.inner.destination.texture
  | .destination_mip_level => .nat self.inner.destination.mip_level
  | .destination_layer_or_depth_plane => .nat self.inner.destination.layer_or_depth_plane
  | .destination_x => .nat self.inner.destination.x
  | .destination_y => .nat self.inner.destination.y
  | .destination_w => .nat self.inner.destination.w
  | .destination_h => .nat self.inner.destination.h
  | .load_op => .loadOp self.inner.load_op
  | .clear_color => .color self.inner.clear_color
  | .filter => .filter self.inner.filter
  | .cycle => .bool self.inner.cycle

/-- Which fields a `BlitSetter` writes. -/
def BlitSetter.writes : BlitSetter → BlitField → Bool
  | .source_texture _, .source_texture => true
  | .source_mip _, .source_mip_level => true
  | .source_region _ _ _ _ _, .source_layer_or_depth_plane => true
  | .source_region _ _ _ _ _, .source_x => true
  | .source_region _ _ _ _ _, .source_y => true
  | .source_region _ _ _ _ _, .source_w => true
  | .source_region _ _ _ _ _, .source_h => true
  | .destination_texture _, .destination_texture => true
  | .destination_mip _, .destination_mip_level => true
  | .destination_region _ _ _ _ _, .destination_layer_or_depth_plane => true
  | .destination_region _ _ _ _ _, .destination_x => true
  | .destination_region _ _ _ _ _, .destination_y => true
  | .destination_region _ _ _ _ _, .destination_w => true
  | .destination_region _ _ _ _ _, .destination_h => true
  | .load_op _, .load_op => true
  | .clear_color _, .clear_color => true
  | .filter _, .filter => true
  | .cycle _, .cycle => true
  | _, _ => false

/-! ## Zero-initialized builder values (`#[derive(Default)]`) -/

/-- The zero-initialized `DepthStencilTargetInfo` (`new()` /
`Default::default()`): null handle, `0.0` clear depth, zero enum encodings,
`false`, zero stencil. -/
def DepthStencilTargetInfo.new : DepthStencilTargetInfo :=
  ⟨⟨0, ⟨0, 0⟩, ⟨0⟩, ⟨0⟩, ⟨0⟩, ⟨0⟩, false, 0⟩⟩

/-- The zero-initialized `ColorTargetInfo` (`Default::default()`). -/
def ColorTargetInfo.new : ColorTargetInfo :=
  ⟨⟨0, ⟨⟨0, 0⟩, ⟨0, 0⟩, ⟨0, 0⟩, ⟨0, 0⟩⟩, ⟨0⟩, ⟨0⟩⟩⟩

/-- The zero-initialized `BlitInfo` (`Default::default()`). -/
def BlitInfo.new : BlitInfo :=
  ⟨⟨⟨0, 0, 0, 0, 0, 0, 0⟩, ⟨0, 0, 0, 0, 0, 0, 0⟩, ⟨0⟩,
    ⟨⟨0, 0⟩, ⟨0, 0⟩, ⟨0, 0⟩, ⟨0, 0⟩⟩, ⟨0⟩, false⟩⟩

/-! ## Proof scaffolding: finite-range boolean checks -/

/-- Check a boolean predicate on every natural below `n`. -/
def checkRange (f : Nat → Bool) : Nat → Bool
  | 0 => true
  | n + 1 => f n && checkRange f n

/-- The per-channel check behind the `[0,1]` normalization invariant: the
binary32 quotient `c / 255` has a nonpositive exponent and a nonnegative
significand bounded by `2^(-p)`. -/
def chanOK (c : Nat) : Bool :=
  let f := f32DivNat c 255
  decide (f.p ≤ 0) && decide (0 ≤ f.m) && decide (f.m ≤ 2 ^ (-f.p).toNat)

/-- The per-step strict-monotonicity check of `c ↦ c / 255` at binary32. -/
def monoOK (c : Nat) : Bool := (f32DivNat c 255).ltB (f32DivNat (c + 1) 255)

/-! ## Helper lemmas -/

theorem checkRange_spec (f : Nat → Bool) :
    ∀ n, checkRange f n = true → ∀ c, c < n → f c = true := by
  intro n
  induction n with
  | zero => intro _ c hc; omega
  | succ k ih =>
    intro h c hc
    rw [checkRange, Bool.and_eq_true] at h
    rcases Nat.lt_succ_iff_lt_or_eq.mp hc with h1 | h2
    · exact ih h.2 c h1
    · subst h2; exact h.1

theorem F32.toRat_mem_unit (f : F32) (hp : f.p ≤ 0) (h0 : 0 ≤ f.m)
    (h1 : f.m ≤ 2 ^ (-f.p).toNat) : 0 ≤ f.toRat ∧ f.toRat ≤ 1 := by
  have hpow : (0 : ℚ) < (2 : ℚ) ^ f.p := zpow_pos (by norm_num) _
  constructor
  · exact mul_nonneg (by exact_mod_cast h0) hpow.le
  · have hk : ((-f.p).toNat : ℤ) = -f.p := Int.toNat_of_nonneg (by omega)
    have hcast : (f.m : ℚ) ≤ (2 : ℚ) ^ ((-f.p).toNat : ℕ) := by exact_mod_cast h1
    have h2 : (f.m : ℚ) ≤ (2 : ℚ) ^ (-f.p) := by
      rwa [← zpow_natCast (2 : ℚ) (-f.p).toNat, hk] at hcast
    calc f.toRat = (f.m : ℚ) * (2 : ℚ) ^ f.p := rfl
      _ ≤ (2 : ℚ) ^ (-f.p) * (2 : ℚ) ^ f.p := mul_le_mul_of_nonneg_right h2 hpow.le
      _ = 1 := by rw [← zpow_add₀ (two_ne_zero) (-f.p) f.p]; simp

theorem F32.toRat_rescale (f : F32) (q : ℤ) (h : q ≤ f.p) :
    f.toRat = ((f.m * 2 ^ (f.p - q).toNat : ℤ) : ℚ) * (2 : ℚ) ^ q := by
  have hk : ((f.p - q).toNat : ℤ) = f.p - q := Int.toNat_of_nonneg (by omega)
  rw [F32.toRat]
  push_cast
  rw [← zpow_natCast (2 : ℚ) (f.p - q).toNat, hk, mul_assoc,
    ← zpow_add₀ (two_ne_zero) (f.p - q) q]
  ring_nf

theorem F32.toRat_lt_of_ltB (f g : F32) (h : f.ltB g = true) : f.toRat < g.toRat := by
  rw [F32.ltB] at h
  simp only [decide_eq_true_eq] at h
  have hq : (0 : ℚ) < (2 : ℚ) ^ (min f.p g.p) := zpow_pos (by norm_num) _
  rw [F32.toRat_rescale f (min f.p g.p) (min_le_left _ _),
      F32.toRat_rescale g (min f.p g.p) (min_le_right _ _)]
  apply mul_lt_mul_of_pos_right _ hq
  exact_mod_cast h

set_option maxRecDepth 1000000 in
theorem chanAll : checkRange chanOK 256 = true := by decide

set_option maxRecDepth 1000000 in
theorem monoAll : checkRange monoOK 255 = true := by decide

theorem dstLastWrite (s : DepthStencilTargetInfo) (a a' b : DSTSetter)
    (h1 : a.tag = a'.tag) (h2 : a.tag ≠ b.tag) :
    ((s.applySet a).applySet b).applySet a' = (s.applySet b).applySet a' := by
  cases a <;> cases a' <;> cases b <;> first | rfl | simp_all [DSTSetter.tag]

theorem ctiLastWrite (s : ColorTargetInfo) (a a' b : CTISetter)
    (h1 : a.tag = a'.tag) (h2 : a.tag ≠ b.tag) :
    ((s.applySet a).applySet b).applySet a' = (s.applySet b).applySet a' := by
  cases a <;> cases a' <;> cases b <;> first | rfl | simp_all [CTISetter.tag]

theorem blitLastWrite (s : BlitInfo) (a a' b : BlitSetter)
    (h1 : a.tag = a'.tag) (h2 : a.tag ≠ b.tag) :
    ((s.applySet a).applySet b).applySet a' = (s.applySet b).applySet a' := by
  cases a <;> cases a' <;> cases b <;> first | rfl | simp_all [BlitSetter.tag]

theorem dstFrame (s : DepthStencilTargetInfo) (a : DSTSetter) (fld : DSTField)
    (h : a.writes fld = false) : (s.applySet a).read fld = s.read fld := by
  cases a <;> cases fld <;> first | rfl | simp_all [DSTSetter.writes]

theorem ctiFrame (s : ColorTargetInfo) (a : CTISetter) (fld : CTIField)
    (h : a.writes fld = false) : (s.applySet a).read fld = s.read fld := by
  cases a <;> cases fld <;> first | rfl | simp_all [CTISetter.writes]

theorem blitFrame (s : BlitInfo) (a : BlitSetter) (fld : BlitField)
    (h : a.writes fld = false) : (s.applySet a).read fld = s.read fld := by
  cases a <;> cases fld <;> first | rfl | simp_all [BlitSetter.writes]

theorem bindCmdsFrom_nil (p : Ptr) (slot : Nat) : bindCmdsFrom p slot [] = [] := rfl

theorem bindCmdsFrom_length (p : Ptr) (slot : Nat) (l : List SDL_GPUBufferBinding) :
    (bindCmdsFrom p slot l).length = l.length := by
  induction l generalizing slot with
  | nil => rfl
  | cons b bs ih => simp [bindCmdsFrom, ih]

theorem bindCmdsFrom_getElem (p : Ptr) (slot : Nat) (l : List SDL_GPUBufferBinding) :
    ∀ i : Nat, (bindCmdsFrom p slot l)[i]? =
      l[i]?.map fun b => GpuCommand.bindVertexBuffer p (slot + i) b := by
  induction l generalizing slot with
  | nil => intro i; simp [bindCmdsFrom]
  | cons b bs ih =>
    intro i
    cases i with
    | zero => simp [bindCmdsFrom]
    | succ j =>
      have := ih (slot + 1) j
      simp only [bindCmdsFrom, List.getElem?_cons_succ, this]
      have harith : slot + 1 + j = slot + (j + 1) := by omega
      rw [harith]

/-! ## The claims -/

/-- C1: the `with_clear_color` setters of `ColorTargetInfo` and `BlitInfo`
store each of the four channels as the binary32 division of the converted byte
by 255.0, with no clamping or other transformation; for byte inputs the stored
value lies in `[0,1]` and the map is strictly monotone (so no two byte values
collapse). -/
theorem claim_C1 : ∀ (s : ColorTargetInfo) (t : BlitInfo) (col : Color),
    ((s.with_clear_color col).inner.clear_color =
        ⟨f32DivNat col.r 255, f32DivNat col.g 255, f32DivNat col.b 255, f32DivNat col.a 255⟩ ∧
      (t.with_clear_color col).inner.clear_color =
        ⟨f32DivNat col.r 255, f32DivNat col.g 255, f32DivNat col.b 255, f32DivNat col.a 255⟩) ∧
    (∀ c : Nat, c ≤ 255 → 0 ≤ (f32DivNat c 255).toRat ∧ (f32DivNat c 255).toRat ≤ 1) ∧
    (∀ c : Nat, c < 255 → (f32DivNat c 255).toRat < (f32DivNat (c + 1) 255).toRat) := by
  intro s t col
  refine ⟨⟨rfl, rfl⟩, ?_, ?_⟩
  · intro c hc
    have h := checkRange_spec chanOK 256 chanAll c (by omega)
    simp only [chanOK, Bool.and_eq_true, decide_eq_true_eq] at h
    exact F32.toRat_mem_unit _ h.1.1 h.1.2 h.2
  · intro c hc
    have h := checkRange_spec monoOK 255 monoAll c hc
    exact F32.toRat_lt_of_ltB _ _ h

theorem claim_C1_witness :
    ((128 : Nat) ≤ 255 ∧
      0 ≤ (f32DivNat 128 255).toRat ∧ (f32DivNat 128 255).toRat ≤ 1) ∧
    ((127 : Nat) < 255 ∧
      (f32DivNat 127 255).toRat < (f32DivNat 128 255).toRat) :=
  ⟨⟨by decide, (claim_C1 ColorTargetInfo.new BlitInfo.new ⟨0, 0, 0, 0⟩).2.1 128 (by decide)⟩,
   ⟨by decide, (claim_C1 ColorTargetInfo.new BlitInfo.new ⟨0, 0, 0, 0⟩).2.2 127 (by decide)⟩⟩

/-- C2: `CommandBuffer::submit` takes its receiver by value (`fn submit(self)`,
so the buffer is consumed and no further operation on it can be written), and
performs exactly one native submit call, returning `Ok(())` exactly when the
native call reports success and `Err` of the driver's last error message when
it reports failure. -/
theorem claim_C2 :
    CommandBuffer.submitReceiver = Receiver.owned ∧
    ∀ (cb : CommandBuffer) (resp : SubmitResponse),
      cb.submit resp =
        (if resp.success then Except.ok () else Except.error ⟨resp.lastError⟩,
         [NativeCall.submitGPUCommandBuffer cb.inner]) :=
  ⟨rfl, fun _ _ => rfl⟩

/-- C3: both swapchain-acquisition variants perform exactly one native acquire
call (so no retry), return `Ok` of a texture built from the native-reported
handle, width, and height exactly when the native call reports success, and
`Err` of the driver's last error string exactly when it reports failure. -/
theorem claim_C3 :
    ∀ (cb : CommandBuffer) (w : Window) (resp : AcquireResponse),
      cb.wait_and_acquire_swapchain_texture w resp =
          (if resp.success then
              Except.ok (Texture.new_sdl_managed resp.swapchain resp.width resp.height)
            else Except.error ⟨resp.lastError⟩,
           [NativeCall.waitAndAcquireGPUSwapchainTexture cb.inner w.raw]) ∧
      cb.acquire_swapchain_texture w resp =
          (if resp.success then
              Except.ok (Texture.new_sdl_managed resp.swapchain resp.width resp.height)
            else Except.error ⟨resp.lastError⟩,
           [NativeCall.acquireGPUSwapchainTexture cb.inner w.raw]) ∧
      (cb.wait_and_acquire_swapchain_texture w resp).2.length = 1 ∧
      (cb.acquire_swapchain_texture w resp).2.length = 1 :=
  fun _ _ _ => ⟨rfl, rfl, rfl, rfl⟩

/-- C4 (amended): for every slice of fewer than `2^32` buffer bindings,
`bind_vertex_buffers` followed by a draw call records one native bind call
carrying all the bindings then one native draw call, whose command stream is
exactly N per-slot bind operations (the i-th binding at slot `first_slot + i`)
followed by one draw operation. -/
theorem claim_C4 :
    ∀ (rp : RenderPass) (first : Nat) (bs : List BufferBinding) (nv ni fv fi : Nat),
      bs.length < 2 ^ 32 →
      (rp.bind_vertex_buffers first bs ++ rp.draw_primitives nv ni fv fi =
        [NativeCall.bindGPUVertexBuffers rp.inner first (bs.map BufferBinding.inner) bs.length,
         NativeCall.drawGPUPrimitives rp.inner (nv % 2 ^ 32) (ni % 2 ^ 32) (fv % 2 ^ 32)
           (fi % 2 ^ 32)]) ∧
      traceCommands (rp.bind_vertex_buffers first bs ++ rp.draw_primitives nv ni fv fi) =
        bindCmdsFrom rp.inner first (bs.map BufferBinding.inner) ++
          [GpuCommand.drawPrimitives rp.inner (nv % 2 ^ 32) (ni % 2 ^ 32) (fv % 2 ^ 32)
            (fi % 2 ^ 32)] ∧
      (bindCmdsFrom rp.inner first (bs.map BufferBinding.inner)).length = bs.length ∧
      ∀ i : Nat, (bindCmdsFrom rp.inner first (bs.map BufferBinding.inner))[i]? =
        (bs.map BufferBinding.inner)[i]?.map fun b =>
          GpuCommand.bindVertexBuffer rp.inner (first + i) b := by
  intro rp first bs nv ni fv fi h
  have hlen : bs.length % 2 ^ 32 = bs.length := Nat.mod_eq_of_lt h
  refine ⟨?_, ?_, ?_, ?_⟩
  · simp only [RenderPass.bind_vertex_buffers, RenderPass.draw_primitives, RenderPass.raw,
      List.cons_append, List.nil_append, hlen]
  · simp only [RenderPass.bind_vertex_buffers, RenderPass.draw_primitives, RenderPass.raw,
      List.cons_append, List.nil_append, traceCommands, NativeCall.commands, hlen,
      List.append_nil]
    rw [← List.length_map bs BufferBinding.inner, List.take_length]
  · rw [bindCmdsFrom_length, List.length_map]
  · exact bindCmdsFrom_getElem rp.inner first (bs.map BufferBinding.inner)

/-- C4 counterexample: with `N = 2^32` bindings, the count the wrapper passes
to the native call is `len() as u32 = 0`, so the native command stream records
no bind at all, not `N` binds, before the draw. -/
theorem claim_C4_counterexample :
    ¬ (traceCommands (RenderPass.bind_vertex_buffers ⟨1⟩ 0 (List.replicate (2 ^ 32) ⟨⟨2, 0⟩⟩) ++
          RenderPass.draw_primitives ⟨1⟩ 3 1 0 0) =
        bindCmdsFrom 1 0 ((List.replicate (2 ^ 32) (⟨⟨2, 0⟩⟩ : BufferBinding)).map
            BufferBinding.inner) ++
          [GpuCommand.drawPrimitives 1 3 1 0 0]) := by
  intro h
  have h1 : (traceCommands (RenderPass.bind_vertex_buffers ⟨1⟩ 0
      (List.replicate (2 ^ 32) ⟨⟨2, 0⟩⟩) ++
        RenderPass.draw_primitives ⟨1⟩ 3 1 0 0)).length = 1 := by
    simp only [RenderPass.bind_vertex_buffers, RenderPass.draw_primitives, RenderPass.raw,
      List.cons_append, List.nil_append, traceCommands, NativeCall.commands, List.append_nil,
      List.length_replicate, Nat.mod_self, List.take_zero, bindCmdsFrom_nil,
      List.length_cons, List.length_nil]
  have h2 : (bindCmdsFrom 1 0 ((List.replicate (2 ^ 32) (⟨⟨2, 0⟩⟩ : BufferBinding)).map
      BufferBinding.inner) ++ [GpuCommand.drawPrimitives 1 3 1 0 0]).length = 2 ^ 32 + 1 := by
    rw [List.length_append, bindCmdsFrom_length, List.length_map, List.length_replicate,
      List.length_singleton]
  rw [h, h2] at h1
  exact absurd h1 (by omega)

theorem claim_C4_witness :
    ([(⟨⟨2, 0⟩⟩ : BufferBinding)].length < 2 ^ 32) ∧
    traceCommands (RenderPass.bind_vertex_buffers ⟨1⟩ 0 [⟨⟨2, 0⟩⟩] ++
        RenderPass.draw_primitives ⟨1⟩ 3 1 0 0) =
      bindCmdsFrom 1 0 [⟨2, 0⟩] ++
        [GpuCommand.drawPrimitives 1 (3 % 2 ^ 32) (1 % 2 ^ 32) (0 % 2 ^ 32) (0 % 2 ^ 32)] :=
  ⟨by decide, (claim_C4 ⟨1⟩ 0 [⟨⟨2, 0⟩⟩] 3 1 0 0 (by decide)).2.1⟩

/-- C5: on every builder, two same-field writes with an interleaved write to a
distinct field obey last-write-wins: set-A, set-B, set-A-again equals set-B
then the final set-A. -/
theorem claim_C5 :
    (∀ (s : DepthStencilTargetInfo) (a a' b : DSTSetter), a.tag = a'.tag → a.tag ≠ b.tag →
      ((s.applySet a).applySet b).applySet a' = (s.applySet b).applySet a') ∧
    (∀ (s : ColorTargetInfo) (a a' b : CTISetter), a.tag = a'.tag → a.tag ≠ b.tag →
      ((s.applySet a).applySet b).applySet a' = (s.applySet b).applySet a') ∧
    (∀ (s : BlitInfo) (a a' b : BlitSetter), a.tag = a'.tag → a.tag ≠ b.tag →
      ((s.applySet a).applySet b).applySet a' = (s.applySet b).applySet a') :=
  ⟨dstLastWrite, ctiLastWrite, blitLastWrite⟩

theorem claim_C5_witness :
    DSTSetter.tag (.cycle true) = DSTSetter.tag (.cycle false) ∧
    DSTSetter.tag (.cycle true) ≠ DSTSetter.tag (.clear_stencil 7) ∧
    ((DepthStencilTargetInfo.new.applySet (.cycle true)).applySet
        (.clear_stencil 7)).applySet (.cycle false) =
      (DepthStencilTargetInfo.new.applySet (.clear_stencil 7)).applySet (.cycle false) :=
  ⟨rfl, by decide, claim_C5.1 DepthStencilTargetInfo.new _ _ _ rfl (by decide)⟩

/-- C6: pushing a 4x4 `f32` matrix as vertex uniform data at slot 0 and then
`draw_indexed_primitives(6,1,0,0,0)` records exactly two native calls, in that
order, the uniform push carrying a byte size of exactly 64. -/
theorem claim_C6 :
    ∀ (cb : CommandBuffer) (rp : RenderPass) (data : Ptr),
      cb.push_vertex_uniform_data 0 Matrix4x4 data ++ rp.draw_indexed_primitives 6 1 0 0 0 =
        [NativeCall.pushGPUVertexUniformData cb.inner 0 data 64,
         NativeCall.drawGPUIndexedPrimitives rp.inner 6 1 0 0 0] ∧
      (cb.push_vertex_uniform_data 0 Matrix4x4 data ++
          rp.draw_indexed_primitives 6 1 0 0 0).length = 2 :=
  fun _ _ _ => ⟨rfl, rfl⟩

/-- C7 (amended): for every sized type `T` whose byte size is below `2^32`,
every slot and each shader stage, the push operation records exactly one
native uniform push for that stage, with the slot unchanged and the byte
length equal to `size_of::<T>()`; for larger `T` the recorded length is
`size_of::<T>() mod 2^32`. -/
theorem claim_C7 :
    ∀ (T : RustType) (slot : Nat) (cb : CommandBuffer) (data : Ptr),
      T.size_of < 2 ^ 32 →
      cb.push_vertex_uniform_data slot T data =
          [NativeCall.pushGPUVertexUniformData cb.inner slot data T.size_of] ∧
      cb.push_fragment_uniform_data slot T data =
          [NativeCall.pushGPUFragmentUniformData cb.inner slot data T.size_of] ∧
      cb.push_compute_uniform_data slot T data =
          [NativeCall.pushGPUComputeUniformData cb.inner slot data T.size_of] := by
  intro T slot cb data h
  have hlen : T.size_of % 2 ^ 32 = T.size_of := Nat.mod_eq_of_lt h
  refine ⟨?_, ?_, ?_⟩ <;>
    simp only [CommandBuffer.push_vertex_uniform_data, CommandBuffer.push_fragment_uniform_data,
      CommandBuffer.push_compute_uniform_data, CommandBuffer.raw, hlen]

/-- C7 counterexample: at `T = [u8; 2^32]` (byte size `2^32`), the recorded
length is `size_of::<T>() as u32 = 0`, not the size of `T`. -/
theorem claim_C7_counterexample :
    CommandBuffer.push_vertex_uniform_data ⟨1⟩ 0 (RustType.array (2 ^ 32) .u8) 5 ≠
      [NativeCall.pushGPUVertexUniformData 1 0 5
        (RustType.array (2 ^ 32) RustType.u8).size_of] := by
  decide

theorem claim_C7_witness :
    Matrix4x4.size_of < 2 ^ 32 ∧
    CommandBuffer.push_vertex_uniform_data ⟨1⟩ 0 Matrix4x4 5 =
      [NativeCall.pushGPUVertexUniformData 1 0 5 Matrix4x4.size_of] :=
  ⟨by decide, (claim_C7 Matrix4x4 0 ⟨1⟩ 5 (by decide)).1⟩

/-- C8: `cancel` borrows its receiver (`&mut self`), leaves the stored native
handle unchanged while performing exactly one native cancel call, and in the
recording-lifetime model either terminator ends a recording buffer while a
sequence of terminators is legal exactly when it contains at most one — so
exactly one of submit/cancel terminates a given buffer. -/
theorem claim_C8 :
    CommandBuffer.cancelReceiver = Receiver.exclusive ∧
    (∀ cb : CommandBuffer, cb.cancel = (cb, [NativeCall.cancelGPUCommandBuffer cb.inner])) ∧
    (∀ e : TerminalOp, lifeStep BufferLife.recording e = some BufferLife.terminated) ∧
    (∀ evs : List TerminalOp, (lifeRun BufferLife.recording evs).isSome ↔ evs.length ≤ 1) := by
  refine ⟨rfl, fun _ => rfl, fun e => by cases e <;> rfl, fun evs => ?_⟩
  match evs with
  | [] => simp [lifeRun]
  | [e] => cases e <;> simp [lifeRun, lifeStep]
  | e :: f :: es => cases e <;> cases f <;> simp [lifeRun, lifeStep]

/-- C9: each compute-storage bind converts its slice of borrowed resources to
the contiguous array of their native handles — same length, i-th handle from
the i-th resource — and performs a single native bind call with the caller's
first slot and that array. -/
theorem claim_C9 :
    ∀ (cp : ComputePass) (first_slot : Nat) (bufs : List Buffer) (texs : List Texture),
      cp.bind_compute_storage_buffers first_slot bufs =
          [NativeCall.bindGPUComputeStorageBuffers cp.inner first_slot (bufs.map Buffer.raw)
            (bufs.length % 2 ^ 32)] ∧
      (bufs.map Buffer.raw).length = bufs.length ∧
      (∀ i : Nat, (bufs.map Buffer.raw)[i]? = bufs[i]?.map Buffer.raw) ∧
      cp.bind_compute_storage_textures first_slot texs =
          [NativeCall.bindGPUComputeStorageTextures cp.inner first_slot (texs.map Texture.raw)
            (texs.length % 2 ^ 32)] ∧
      (texs.map Texture.raw).length = texs.length ∧
      (∀ i : Nat, (texs.map Texture.raw)[i]? = texs[i]?.map Texture.raw) := by
  intro cp first_slot bufs texs
  refine ⟨?_, List.length_map _ _, fun i => List.getElem?_map _ _ _, ?_,
    List.length_map _ _, fun i => List.getElem?_map _ _ _⟩
  · simp [ComputePass.bind_compute_storage_buffers, List.length_map]
  · simp [ComputePass.bind_compute_storage_textures, List.length_map]

/-- C10: every `with_*` setter on the three builders changes only the
field(s) it names: reading any field the setter does not write yields the
value it had before the call. -/
theorem claim_C10 :
    (∀ (s : DepthStencilTargetInfo) (a : DSTSetter) (fld : DSTField),
      a.writes fld = false → (s.applySet a).read fld = s.read fld) ∧
    (∀ (s : ColorTargetInfo) (a : CTISetter) (fld : CTIField),
      a.writes fld = false → (s.applySet a).read fld = s.read fld) ∧
    (∀ (s : BlitInfo) (a : BlitSetter) (fld : BlitField),
      a.writes fld = false → (s.applySet a).read fld = s.read fld) :=
  ⟨dstFrame, ctiFrame, blitFrame⟩

theorem claim_C10_witness :
    BlitSetter.writes (.cycle true) BlitField.filter = false ∧
    (BlitInfo.new.applySet (.cycle true)).read BlitField.filter =
      BlitInfo.new.read BlitField.filter :=
  ⟨rfl, claim_C10.2.2 BlitInfo.new (.cycle true) BlitField.filter rfl⟩

end SDL3GPU
